import Mathlib

/-!
Shallow embedding of the seller marketplace mobile client
(screens: login, signup, profile setup, dashboard, catalog, inventory,
orders, profile) and of the relevant parts of its SQL schema.

Remote calls are modelled by passing their outcome as an explicit
argument: `Option String` where `some msg` is the error returned by the
backend (with `msg` the error's message, possibly empty, matching the
`error.message || 'fallback'` pattern of the source) and `none` is
success. Each screen handler becomes a pure function from the screen's
local state and the remote outcome to the new local state together with
a description of the request it issued.
-/

namespace Userpage

/-- Navigation targets used via `router.replace` in the screens. -/
inductive Route where
  | authLogin
  | authProfileSetup
  | tabs
  deriving DecidableEq, Repr

/-- A `sellers` row, per the migration
`20251004163357_create_seller_marketplace_schema.sql` and the
`SellerProfile` interface of `profile.tsx` (timestamps omitted; no
screen reads them). -/
structure Seller where
  id : String
  shop_name : String
  owner_name : String
  phone : String
  email : String
  address : String
  gst_number : Option String
  is_verified : Bool
  deriving DecidableEq, Repr

/-- The `sellers` existence probe of `checkProfile`:
`from('sellers').select('id').eq('id', user.id).maybeSingle()` returns a
row exactly when one with the given id is present. -/
def sellerExists (db : List Seller) (uid : String) : Bool :=
  db.any fun s => s.id == uid

/-- `checkProfile` from the root index screen: waits for auth loading,
sends signed-out users to the login route, and otherwise routes on
whether a `sellers` row keyed by the session identity exists. -/
def checkProfile (loading : Bool) (user : Option String) (db : List Seller) :
    Option Route :=
  if loading then none
  else
    match user with
    | none => some Route.authLogin
    | some uid =>
        if sellerExists db uid then some Route.tabs
        else some Route.authProfileSetup

/-- The guard `phone.startsWith('+')` of the phone handlers: for the
one-character needle `'+'` it holds exactly when the first character is
`'+'` (spelled on the character list so that it evaluates in the
kernel). -/
def startsWithPlus (s : String) : Bool :=
  match s.data with
  | [] => false
  | c :: _ => c == '+'

/-- Local state of the login screen (`LoginScreen`): the `useState`
fields the email/phone handlers read or write. -/
structure LoginState where
  email : String
  password : String
  phone : String
  otp : String
  otpSent : Bool
  error : String
  deriving DecidableEq, Repr

/-- Result of running a login-screen handler: the new local state,
whether the remote auth call was issued, and the navigation performed. -/
structure LoginOutcome where
  state : LoginState
  callMade : Bool
  nav : Option Route
  deriving DecidableEq, Repr

/-- `handleEmailLogin` of the login screen: empty-field check, then
`signIn(email, password)`; on error set the message, on success
`router.replace('/(tabs)')`. -/
def handleEmailLogin (st : LoginState) (signInResult : Option String) :
    LoginOutcome :=
  if st.email.isEmpty || st.password.isEmpty then
    { state := { st with error := "Please fill in all fields" }
      callMade := false, nav := none }
  else
    match signInResult with
    | some msg =>
        { state := { st with
            error := if msg.isEmpty then "Failed to sign in" else msg }
          callMade := true, nav := none }
    | none =>
        { state := { st with error := "" }
          callMade := true, nav := some Route.tabs }

/-- `handlePhoneSendOtp` of the login screen: empty check, then the
leading `+` check, then `signInWithPhone(phone)`; on success set
`otpSent`. -/
def loginHandlePhoneSendOtp (st : LoginState) (sendResult : Option String) :
    LoginOutcome :=
  if st.phone.isEmpty then
    { state := { st with error := "Please enter your phone number" }
      callMade := false, nav := none }
  else if !(startsWithPlus st.phone) then
    { state := { st with
        error := "Phone number must include country code (e.g., +1234567890)" }
      callMade := false, nav := none }
  else
    match sendResult with
    | some msg =>
        { state := { st with
            error := if msg.isEmpty then "Failed to send OTP" else msg }
          callMade := true, nav := none }
    | none =>
        { state := { st with error := "", otpSent := true }
          callMade := true, nav := none }

/-- `handlePhoneVerifyOtp` of the login screen: empty check, then
`verifyOtp(phone, otp)`; a returned session navigates to `/(tabs)`.
The remote outcome is the pair `(error, session)` of the source. -/
def loginHandlePhoneVerifyOtp (st : LoginState)
    (verifyError : Option String) (sessionEstablished : Bool) : LoginOutcome :=
  if st.otp.isEmpty then
    { state := { st with error := "Please enter the OTP" }
      callMade := false, nav := none }
  else
    match verifyError with
    | some msg =>
        { state := { st with
            error := if msg.isEmpty then "Failed to verify OTP" else msg }
          callMade := true, nav := none }
    | none =>
        { state := { st with error := "" }
          callMade := true
          nav := if sessionEstablished then some Route.tabs else none }

/-- Local state of the signup screen (`SignupScreen`). -/
structure SignupState where
  email : String
  password : String
  confirmPassword : String
  phone : String
  otp : String
  otpSent : Bool
  error : String
  deriving DecidableEq, Repr

/-- Result of running a signup-screen handler. -/
structure SignupOutcome where
  state : SignupState
  callMade : Bool
  nav : Option Route
  deriving DecidableEq, Repr

/-- `handleEmailSignup` of the signup screen: empty-field check, then
password/confirmation match, then minimum length 6, then
`signUp(email, password)`; success navigates to profile setup. -/
def handleEmailSignup (st : SignupState) (signUpResult : Option String) :
    SignupOutcome :=
  if st.email.isEmpty || st.password.isEmpty || st.confirmPassword.isEmpty then
    { state := { st with error := "Please fill in all fields" }
      callMade := false, nav := none }
  else if st.password ≠ st.confirmPassword then
    { state := { st with error := "Passwords do not match" }
      callMade := false, nav := none }
  else if st.password.length < 6 then
    { state := { st with error := "Password must be at least 6 characters" }
      callMade := false, nav := none }
  else
    match signUpResult with
    | some msg =>
        { state := { st with
            error := if msg.isEmpty then "Failed to create account" else msg }
          callMade := true, nav := none }
    | none =>
        { state := { st with error := "" }
          callMade := true, nav := some Route.authProfileSetup }

/-- `handlePhoneSendOtp` of the signup screen; its body is identical to
the login screen's handler. -/
def signupHandlePhoneSendOtp (st : SignupState) (sendResult : Option String) :
    SignupOutcome :=
  if st.phone.isEmpty then
    { state := { st with error := "Please enter your phone number" }
      callMade := false, nav := none }
  else if !(startsWithPlus st.phone) then
    { state := { st with
        error := "Phone number must include country code (e.g., +1234567890)" }
      callMade := false, nav := none }
  else
    match sendResult with
    | some msg =>
        { state := { st with
            error := if msg.isEmpty then "Failed to send OTP" else msg }
          callMade := true, nav := none }
    | none =>
        { state := { st with error := "", otpSent := true }
          callMade := true, nav := none }

/-- A catalog entry as the catalog screen holds it: a `master_products`
row plus the computed `is_added` flag. -/
structure Product where
  id : String
  name : String
  brand : String
  category : String
  base_price : ℚ
  description : Option String
  image_url : Option String
  is_added : Bool
  deriving DecidableEq, Repr

/-- The row the catalog screen's `addProduct` inserts into
`seller_products`. -/
structure SellerProductInsert where
  seller_id : String
  product_id : String
  stock_status : String
  deriving DecidableEq, Repr

/-- Result of running `addProduct`: the new product list, the insert
request issued (if any), and the message surfaced to the user. The
catalog screen declares no error state, so `errorMessage` is the only
channel a failure could use, and the handler never writes it. -/
structure AddOutcome where
  products : List Product
  request : Option SellerProductInsert
  errorMessage : Option String
  deriving DecidableEq, Repr

/-- `addProduct` of the catalog screen: guard on a signed-in user,
insert `{ seller_id, product_id, stock_status: 'available' }`, and only
on success mark the product added locally; an insert error is ignored. -/
def addProduct (user : Option String) (products : List Product)
    (productId : String) (insertResult : Option String) : AddOutcome :=
  match user with
  | none => { products := products, request := none, errorMessage := none }
  | some uid =>
      let req : SellerProductInsert :=
        { seller_id := uid, product_id := productId
          stock_status := "available" }
      match insertResult with
      | some _ =>
          { products := products, request := some req, errorMessage := none }
      | none =>
          { products := products.map fun p =>
              if p.id == productId then { p with is_added := true } else p
            request := some req, errorMessage := none }

/-- JavaScript's `String.prototype.includes`: the needle occurs as a
contiguous substring (always true for the empty needle). -/
def strIncludes (s sub : String) : Bool :=
  decide (sub.data <:+: s.data)

/-- `filteredProducts` of the catalog screen: keep products whose
lowercased name, brand or category contains the lowercased query. -/
def filteredProducts (products : List Product) (searchQuery : String) :
    List Product :=
  products.filter fun p =>
    strIncludes p.name.toLower searchQuery.toLower ||
    strIncludes p.brand.toLower searchQuery.toLower ||
    strIncludes p.category.toLower searchQuery.toLower

/-- A `seller_products` row as stored, per the migration: columns
`seller_id`, `product_id`, `custom_price`, `stock_status` (ids and
timestamp omitted; the uniqueness constraint is on the pair). -/
structure SellerProductRow where
  seller_id : String
  product_id : String
  custom_price : Option ℚ
  stock_status : String
  deriving DecidableEq, Repr

/-- The `CHECK (stock_status IN ('available', 'out_of_stock'))`
constraint of the `seller_products` table. -/
def stockStatusValid (s : String) : Bool :=
  s == "available" || s == "out_of_stock"

/-- The storage layer's insert into `seller_products`: rejected when the
`UNIQUE(seller_id, product_id)` constraint is violated, otherwise the
row is appended with the requested stock status. -/
def insertSellerProduct (db : List SellerProductRow)
    (req : SellerProductInsert) : Except String (List SellerProductRow) :=
  if db.any fun r =>
      r.seller_id == req.seller_id && r.product_id == req.product_id then
    Except.error "duplicate key value violates unique constraint"
  else
    Except.ok (db ++ [{ seller_id := req.seller_id
                        product_id := req.product_id
                        custom_price := none
                        stock_status := req.stock_status }])

/-- The joined `master_products` details of the inventory screen's
`SellerProduct` interface. -/
structure ProductInfo where
  name : String
  brand : String
  category : String
  base_price : ℚ
  image_url : Option String
  deriving DecidableEq, Repr

/-- An inventory entry as the "my products" screen holds it. -/
structure SellerProduct where
  id : String
  product_id : String
  stock_status : String
  product : ProductInfo
  deriving DecidableEq, Repr

/-- The `newStatus` computation inside `toggleStock`:
`currentStatus === 'available' ? 'out_of_stock' : 'available'`. -/
def toggleStatus (currentStatus : String) : String :=
  if currentStatus == "available" then "out_of_stock" else "available"

/-- The update request `toggleStock` issues against `seller_products`. -/
structure StockUpdateRequest where
  rowId : String
  stock_status : String
  deriving DecidableEq, Repr

/-- Result of running `toggleStock`: new local list plus the request. -/
structure ToggleOutcome where
  products : List SellerProduct
  request : StockUpdateRequest
  deriving DecidableEq, Repr

/-- `toggleStock` of the inventory screen: compute the flipped status,
update the row by id, and only on success reflect it locally. -/
def toggleStock (products : List SellerProduct)
    (productId currentStatus : String) (updateResult : Option String) :
    ToggleOutcome :=
  let newStatus := toggleStatus currentStatus
  let req : StockUpdateRequest := { rowId := productId, stock_status := newStatus }
  match updateResult with
  | some _ => { products := products, request := req }
  | none =>
      { products := products.map fun p =>
          if p.id == productId then { p with stock_status := newStatus } else p
        request := req }

/-- `removeProduct` of the inventory screen: delete the row by id and
only on success drop it from the local list. -/
def removeProduct (products : List SellerProduct) (productId : String)
    (deleteResult : Option String) : List SellerProduct :=
  match deleteResult with
  | some _ => products
  | none => products.filter fun p => !(p.id == productId)

/-- One entry of the orders screen's `STATUS_OPTIONS`. -/
structure StatusOption where
  value : String
  label : String
  color : String
  deriving DecidableEq, Repr

/-- `STATUS_OPTIONS` of the orders screen. -/
def STATUS_OPTIONS : List StatusOption :=
  [ { value := "confirmed", label := "Confirmed", color := "#3b82f6" },
    { value := "packed", label := "Packed", color := "#8b5cf6" },
    { value := "shipped", label := "Shipped", color := "#f59e0b" },
    { value := "delivered", label := "Delivered", color := "#10b981" },
    { value := "cancelled", label := "Cancelled", color := "#ef4444" } ]

/-- An `orders` row as the orders screen holds it. -/
structure Order where
  id : String
  buyer_name : String
  buyer_phone : String
  buyer_address : String
  status : String
  total_amount : ℚ
  created_at : String
  deriving DecidableEq, Repr

/-- The update request `updateOrderStatus` issues against `orders`:
`{ status: newStatus, updated_at: new Date().toISOString() }` filtered
by order id. -/
structure OrderUpdateRequest where
  orderId : String
  status : String
  updated_at : String
  deriving DecidableEq, Repr

/-- Result of running `updateOrderStatus`: the local list, the modal
visibility flag, and the request issued. -/
structure OrderUpdateOutcome where
  orders : List Order
  modalVisible : Bool
  request : OrderUpdateRequest
  deriving DecidableEq, Repr

/-- `updateOrderStatus` of the orders screen. `now` stands for
`new Date().toISOString()` at the moment the handler runs. On success
the local list maps the order to the new status and the modal closes;
on error both are left as they were. -/
def updateOrderStatus (orders : List Order) (modalVisible : Bool)
    (orderId newStatus now : String) (updateResult : Option String) :
    OrderUpdateOutcome :=
  let req : OrderUpdateRequest :=
    { orderId := orderId, status := newStatus, updated_at := now }
  match updateResult with
  | some _ => { orders := orders, modalVisible := modalVisible, request := req }
  | none =>
      { orders := orders.map fun o =>
          if o.id == orderId then { o with status := newStatus } else o
        modalVisible := false, request := req }

/-- The per-target actions the order-detail modal renders: one button
per `STATUS_OPTIONS` entry, each wired to
`updateOrderStatus(selectedOrder.id, status.value)`, with no guard on
the selected order's current status. -/
def statusActions (selectedOrder : Order) : List (String × String) :=
  STATUS_OPTIONS.map fun s => (selectedOrder.id, s.value)

/-- The dashboard's `DashboardStats` state. -/
structure DashboardStats where
  totalProducts : Nat
  inStock : Nat
  outOfStock : Nat
  totalOrders : Nat
  revenue : ℚ
  deriving DecidableEq, Repr

/-- The stats computation of the dashboard's `loadStats`, applied to the
seller's `seller_products` and `orders` query results. Revenue folds
`sum + parseFloat(o.total_amount)` over the orders whose status is
`'delivered'`. -/
def loadStats (products : List SellerProduct) (orders : List Order) :
    DashboardStats :=
  { totalProducts := products.length
    inStock := (products.filter fun p => p.stock_status == "available").length
    outOfStock :=
      (products.filter fun p => p.stock_status == "out_of_stock").length
    totalOrders := orders.length
    revenue :=
      ((orders.filter fun o => o.status == "delivered").map
        fun o => o.total_amount).foldl (· + ·) 0 }

/-- The profile screen's `SellerProfile` interface (the fields the edit
form holds). -/
structure SellerProfile where
  shop_name : String
  owner_name : String
  phone : String
  email : String
  address : String
  gst_number : Option String
  is_verified : Bool
  deriving DecidableEq, Repr

/-- The update request `handleSave` issues against `sellers`: exactly
the five editable columns, filtered by `.eq('id', user.id)`. -/
structure SellerUpdateRequest where
  shop_name : String
  owner_name : String
  phone : String
  address : String
  gst_number : Option String
  targetId : String
  deriving DecidableEq, Repr

/-- `handleSave` of the profile screen: guard on user and edited
profile, then a single update carrying the five editable fields. -/
def handleSave (user : Option String) (editedProfile : Option SellerProfile) :
    Option SellerUpdateRequest :=
  match user, editedProfile with
  | some uid, some e =>
      some { shop_name := e.shop_name, owner_name := e.owner_name
             phone := e.phone, address := e.address
             gst_number := e.gst_number, targetId := uid }
  | _, _ => none

/-- The storage layer's row-filtered update of a `sellers` row: a row
matching the request's id filter gets exactly the request's columns
assigned; any other row is untouched. -/
def applySellerUpdate (req : SellerUpdateRequest) (row : Seller) : Seller :=
  if row.id == req.targetId then
    { row with shop_name := req.shop_name, owner_name := req.owner_name
               phone := req.phone, address := req.address
               gst_number := req.gst_number }
  else row

/-! Helper lemmas shared by the claim theorems. -/

/-- Unfolding lemma for `String.toLower`: its characters are the
lowercased characters of the input. -/
theorem toLower_data (s : String) : s.toLower.data = s.data.map Char.toLower := by
  rw [String.toLower, String.map_eq]

/-- Summing `total_amount` over the delivered orders equals summing a
per-order contribution that is `0` on every non-delivered order. -/
theorem sum_map_filter_delivered (l : List Order) :
    ((l.filter fun o => o.status == "delivered").map fun o => o.total_amount).sum =
      (l.map fun o => if o.status == "delivered" then o.total_amount else 0).sum := by
  induction l with
  | nil => rfl
  | cons a t ih =>
      by_cases h : a.status = "delivered"
      · simp [List.filter_cons, h, ih]
      · simp [List.filter_cons, h, ih]

/-! The claims. -/

/-- C1, counterexample to the claim as stated. The claim says that after
every successful login whose session identity has no `sellers` row, the
navigation goes to profile setup and never to the main dashboard. At the
concrete input below the `sellers` table is empty (so no row exists for
any identity), the login succeeds, and `handleEmailLogin` still
navigates to the tabs route (the main dashboard), not to profile
setup. -/
theorem c1_counterexample :
    sellerExists [] "user-1" = false ∧
    (handleEmailLogin
      { email := "a@b.c", password := "secret", phone := "", otp := ""
        otpSent := false, error := "" } none).nav = some Route.tabs ∧
    (handleEmailLogin
      { email := "a@b.c", password := "secret", phone := "", otp := ""
        otpSent := false, error := "" } none).nav ≠ some Route.authProfileSetup := by
  refine ⟨rfl, by decide, by decide⟩

/-- C1, amended. Only the root index screen's `checkProfile` routes a
session with no `sellers` row to profile setup; the login screen's
success handlers navigate straight to the tabs route without consulting
the `sellers` table, so a successful login with no profile lands on the
main dashboard. -/
theorem c1_amended_routing (uid : String) (db : List Seller) (st : LoginState)
    (hnoseller : sellerExists db uid = false)
    (hemail : st.email.isEmpty = false) (hpassword : st.password.isEmpty = false)
    (hotp : st.otp.isEmpty = false) :
    checkProfile false (some uid) db = some Route.authProfileSetup ∧
    (handleEmailLogin st none).nav = some Route.tabs ∧
    (handleEmailLogin st none).callMade = true ∧
    (loginHandlePhoneVerifyOtp st none true).nav = some Route.tabs := by
  refine ⟨?_, ?_, ?_, ?_⟩
  · simp [checkProfile, hnoseller]
  · simp [handleEmailLogin, hemail, hpassword]
  · simp [handleEmailLogin, hemail, hpassword]
  · simp [loginHandlePhoneVerifyOtp, hotp]

/-- C1, witness for the amended theorem at a concrete input. -/
theorem c1_amended_witness :
    checkProfile false (some "user-1") [] = some Route.authProfileSetup ∧
    (handleEmailLogin
      { email := "a@b.c", password := "secret", phone := "", otp := "1234"
        otpSent := false, error := "" } none).nav = some Route.tabs ∧
    (handleEmailLogin
      { email := "a@b.c", password := "secret", phone := "", otp := "1234"
        otpSent := false, error := "" } none).callMade = true ∧
    (loginHandlePhoneVerifyOtp
      { email := "a@b.c", password := "secret", phone := "", otp := "1234"
        otpSent := false, error := "" } none true).nav = some Route.tabs :=
  c1_amended_routing "user-1" []
    { email := "a@b.c", password := "secret", phone := "", otp := "1234"
      otpSent := false, error := "" } (by decide) (by decide) (by decide) (by decide)

/-- C2: when the remote call of a screen mutation (stock toggle, seller
product removal, order status update) returns an error, the local view
state after the handler equals the local view state before the call. -/
theorem c2_failed_mutation_preserves_state (ps : List SellerProduct)
    (os : List Order) (mv : Bool) (pid cur oid ns now e : String) :
    (toggleStock ps pid cur (some e)).products = ps ∧
    removeProduct ps pid (some e) = ps ∧
    (updateOrderStatus os mv oid ns now (some e)).orders = os ∧
    (updateOrderStatus os mv oid ns now (some e)).modalVisible = mv :=
  ⟨rfl, rfl, rfl, rfl⟩

/-- C3: for every order, whatever its current status, each of the five
status targets is offered by the detail modal; selecting one issues an
update request carrying the new status and the fresh timestamp, and on
success the local list maps that order to the new status. No check of
the current status restricts the transition. -/
theorem c3_any_status_transition (os : List Order) (mv : Bool) (o : Order)
    (target now : String)
    (htarget : target ∈ STATUS_OPTIONS.map StatusOption.value) :
    (o.id, target) ∈ statusActions o ∧
    (updateOrderStatus os mv o.id target now none).request =
      { orderId := o.id, status := target, updated_at := now } ∧
    (updateOrderStatus os mv o.id target now none).orders =
      os.map (fun x => if x.id == o.id then { x with status := target } else x) := by
  refine ⟨?_, rfl, rfl⟩
  rw [List.mem_map] at htarget
  obtain ⟨s, hs, hv⟩ := htarget
  rw [statusActions, List.mem_map]
  exact ⟨s, hs, by rw [hv]⟩

/-- C3, witness at a concrete order and target. -/
theorem c3_witness :
    ("o1", "confirmed") ∈ statusActions
      { id := "o1", buyer_name := "B", buyer_phone := "+10000000"
        buyer_address := "addr", status := "delivered", total_amount := 100
        created_at := "2025-01-01" } ∧
    (updateOrderStatus [] true "o1" "confirmed" "2025-01-02" none).request =
      { orderId := "o1", status := "confirmed", updated_at := "2025-01-02" } ∧
    (updateOrderStatus [] true "o1" "confirmed" "2025-01-02" none).orders =
      ([] : List Order).map
        (fun x => if x.id == "o1" then { x with status := "confirmed" } else x) :=
  c3_any_status_transition [] true
    { id := "o1", buyer_name := "B", buyer_phone := "+10000000"
      buyer_address := "addr", status := "delivered", total_amount := 100
      created_at := "2025-01-01" } "confirmed" "2025-01-02" (by decide)

/-- C4: adding a catalog product inserts a `seller_products` row with
stock status `'available'`; when the pair already exists the storage
layer's unique constraint rejects the insert, and the handler swallows
the failure: no message is surfaced and the local list is unchanged (in
particular the product is not marked added). -/
theorem c4_silent_add_failure (uid pid e : String) (products : List Product)
    (db : List SellerProductRow)
    (hdup : (db.any fun r => r.seller_id == uid && r.product_id == pid) = true) :
    (addProduct (some uid) products pid none).request =
      some { seller_id := uid, product_id := pid, stock_status := "available" } ∧
    (addProduct (some uid) products pid (some e)).request =
      some { seller_id := uid, product_id := pid, stock_status := "available" } ∧
    insertSellerProduct db
      { seller_id := uid, product_id := pid, stock_status := "available" } =
      Except.error "duplicate key value violates unique constraint" ∧
    (addProduct (some uid) products pid (some e)).products = products ∧
    (addProduct (some uid) products pid (some e)).errorMessage = none := by
  refine ⟨rfl, rfl, ?_, rfl, rfl⟩
  simp [insertSellerProduct, hdup]

/-- C4, witness: a duplicate (seller, product) pair at a concrete
database. -/
theorem c4_witness :
    (addProduct (some "s1") [] "p1" none).request =
      some { seller_id := "s1", product_id := "p1", stock_status := "available" } ∧
    (addProduct (some "s1") [] "p1" (some "dup")).request =
      some { seller_id := "s1", product_id := "p1", stock_status := "available" } ∧
    insertSellerProduct
      [{ seller_id := "s1", product_id := "p1", custom_price := none
         stock_status := "available" }]
      { seller_id := "s1", product_id := "p1", stock_status := "available" } =
      Except.error "duplicate key value violates unique constraint" ∧
    (addProduct (some "s1") [] "p1" (some "dup")).products = [] ∧
    (addProduct (some "s1") [] "p1" (some "dup")).errorMessage = none :=
  c4_silent_add_failure "s1" "p1" "dup" []
    [{ seller_id := "s1", product_id := "p1", custom_price := none
       stock_status := "available" }] (by decide)

/-- C5: the filtered catalog holds exactly the products whose lowercased
name, brand or category contains the (contiguous) lowercased query, and
the empty query leaves the list unchanged. -/
theorem c5_catalog_filter (products : List Product) (q : String) :
    (∀ p, p ∈ filteredProducts products q ↔
      p ∈ products ∧
      (q.toLower.data <:+: p.name.toLower.data ∨
       q.toLower.data <:+: p.brand.toLower.data ∨
       q.toLower.data <:+: p.category.toLower.data)) ∧
    filteredProducts products "" = products := by
  constructor
  · intro p
    simp [filteredProducts, List.mem_filter, strIncludes, or_assoc]
  · apply List.filter_eq_self.mpr
    intro p _
    have h0 : ("" : String).toLower.data = [] := by rw [toLower_data]; rfl
    simp [strIncludes, h0, List.nil_infix]

/-- C6: a stock status satisfying the schema's check constraint is one
of the two allowed values, the toggle maps each to the other (so it is
an involution on valid statuses), and the update request `toggleStock`
issues always carries the toggled status. -/
theorem c6_stock_toggle_involution (s : String) (ps : List SellerProduct)
    (pid : String) (r : Option String) (h : stockStatusValid s = true) :
    stockStatusValid (toggleStatus s) = true ∧
    toggleStatus (toggleStatus s) = s ∧
    toggleStatus "available" = "out_of_stock" ∧
    toggleStatus "out_of_stock" = "available" ∧
    (toggleStock ps pid s r).request.stock_status = toggleStatus s := by
  have hs : s = "available" ∨ s = "out_of_stock" := by
    simpa [stockStatusValid] using h
  have hreq : (toggleStock ps pid s r).request.stock_status = toggleStatus s := by
    cases r <;> rfl
  rcases hs with h' | h' <;> subst h' <;>
    exact ⟨by decide, by decide, by decide, by decide, hreq⟩

/-- C6, witness at the concrete status `'available'`. -/
theorem c6_witness :
    stockStatusValid (toggleStatus "available") = true ∧
    toggleStatus (toggleStatus "available") = "available" ∧
    toggleStatus "available" = "out_of_stock" ∧
    toggleStatus "out_of_stock" = "available" ∧
    (toggleStock [] "sp1" "available" none).request.stock_status =
      toggleStatus "available" :=
  c6_stock_toggle_involution "available" [] "sp1" none (by decide)

/-- C7: an email signup attempt whose password is shorter than 6
characters or differs from the confirmation never reaches the remote
signup call, performs no navigation, and leaves a non-empty validation
message. -/
theorem c7_signup_local_validation (st : SignupState) (r : Option String)
    (h : st.password.length < 6 ∨ st.password ≠ st.confirmPassword) :
    (handleEmailSignup st r).callMade = false ∧
    (handleEmailSignup st r).nav = none ∧
    (handleEmailSignup st r).state.error ≠ "" := by
  by_cases h1 : (st.email.isEmpty || st.password.isEmpty || st.confirmPassword.isEmpty) = true
  · refine ⟨?_, ?_, ?_⟩ <;> simp [handleEmailSignup, h1]
  · obtain ⟨he, hpw, hc⟩ : st.email.isEmpty = false ∧ st.password.isEmpty = false ∧
        st.confirmPassword.isEmpty = false := by
      simpa [not_or, and_assoc] using h1
    by_cases h2 : st.password = st.confirmPassword
    · have h3 : st.password.length < 6 := by
        rcases h with h | h
        · exact h
        · exact absurd h2 h
      rw [h2] at h3
      refine ⟨?_, ?_, ?_⟩ <;> simp [handleEmailSignup, he, hpw, hc, h2, h3]
    · refine ⟨?_, ?_, ?_⟩ <;> simp [handleEmailSignup, he, hpw, hc, h2]

/-- C7, witness: a concrete 3-character password (matching its
confirmation) is rejected locally. -/
theorem c7_witness :
    (handleEmailSignup
      { email := "a@b.c", password := "abc", confirmPassword := "abc"
        phone := "", otp := "", otpSent := false, error := "" } none).callMade = false ∧
    (handleEmailSignup
      { email := "a@b.c", password := "abc", confirmPassword := "abc"
        phone := "", otp := "", otpSent := false, error := "" } none).nav = none ∧
    (handleEmailSignup
      { email := "a@b.c", password := "abc", confirmPassword := "abc"
        phone := "", otp := "", otpSent := false, error := "" } none).state.error ≠ "" :=
  c7_signup_local_validation
    { email := "a@b.c", password := "abc", confirmPassword := "abc"
      phone := "", otp := "", otpSent := false, error := "" } none (by decide)

/-- C8: on both the login and the signup screen, a phone OTP request
whose number does not start with `'+'` is rejected before the remote
call: the handler surfaces a non-empty validation message, issues no
call, and does not enter the code-entry state. -/
theorem c8_phone_plus_validation (lst : LoginState) (sst : SignupState)
    (r r' : Option String)
    (hl : startsWithPlus lst.phone = false)
    (hs : startsWithPlus sst.phone = false) :
    (loginHandlePhoneSendOtp lst r).callMade = false ∧
    (loginHandlePhoneSendOtp lst r).state.error ≠ "" ∧
    (loginHandlePhoneSendOtp lst r).state.otpSent = lst.otpSent ∧
    (signupHandlePhoneSendOtp sst r').callMade = false ∧
    (signupHandlePhoneSendOtp sst r').state.error ≠ "" ∧
    (signupHandlePhoneSendOtp sst r').state.otpSent = sst.otpSent := by
  have hlogin : (loginHandlePhoneSendOtp lst r).callMade = false ∧
      (loginHandlePhoneSendOtp lst r).state.error ≠ "" ∧
      (loginHandlePhoneSendOtp lst r).state.otpSent = lst.otpSent := by
    by_cases hp : lst.phone.isEmpty = true
    · refine ⟨?_, ?_, ?_⟩ <;> simp [loginHandlePhoneSendOtp, hp]
    · refine ⟨?_, ?_, ?_⟩ <;> simp [loginHandlePhoneSendOtp, hp, hl]
  have hsignup : (signupHandlePhoneSendOtp sst r').callMade = false ∧
      (signupHandlePhoneSendOtp sst r').state.error ≠ "" ∧
      (signupHandlePhoneSendOtp sst r').state.otpSent = sst.otpSent := by
    by_cases hp : sst.phone.isEmpty = true
    · refine ⟨?_, ?_, ?_⟩ <;> simp [signupHandlePhoneSendOtp, hp]
    · refine ⟨?_, ?_, ?_⟩ <;> simp [signupHandlePhoneSendOtp, hp, hs]
  exact ⟨hlogin.1, hlogin.2.1, hlogin.2.2, hsignup.1, hsignup.2.1, hsignup.2.2⟩

/-- C8, witness: a concrete number lacking the leading `'+'` on both
screens. -/
theorem c8_witness :
    (loginHandlePhoneSendOtp
      { email := "", password := "", phone := "1234567890", otp := ""
        otpSent := false, error := "" } none).callMade = false ∧
    (loginHandlePhoneSendOtp
      { email := "", password := "", phone := "1234567890", otp := ""
        otpSent := false, error := "" } none).state.error ≠ "" ∧
    (loginHandlePhoneSendOtp
      { email := "", password := "", phone := "1234567890", otp := ""
        otpSent := false, error := "" } none).state.otpSent = false ∧
    (signupHandlePhoneSendOtp
      { email := "", password := "", confirmPassword := "", phone := "1234567890"
        otp := "", otpSent := false, error := "" } none).callMade = false ∧
    (signupHandlePhoneSendOtp
      { email := "", password := "", confirmPassword := "", phone := "1234567890"
        otp := "", otpSent := false, error := "" } none).state.error ≠ "" ∧
    (signupHandlePhoneSendOtp
      { email := "", password := "", confirmPassword := "", phone := "1234567890"
        otp := "", otpSent := false, error := "" } none).state.otpSent = false :=
  c8_phone_plus_validation
    { email := "", password := "", phone := "1234567890", otp := ""
      otpSent := false, error := "" }
    { email := "", password := "", confirmPassword := "", phone := "1234567890"
      otp := "", otpSent := false, error := "" } none none (by decide) (by decide)

/-- C9: the profile save issues a single update carrying exactly the
five editable fields, targeted at the caller's own row; applying it
leaves the email, the verified flag and the id of every row unchanged,
rewrites the five fields of the caller's row to the edited values, and
leaves every other row entirely untouched. -/
theorem c9_profile_save_frame (uid : String) (e : SellerProfile) (row : Seller)
    (req : SellerUpdateRequest)
    (hreq : handleSave (some uid) (some e) = some req) :
    req.targetId = uid ∧
    req.shop_name = e.shop_name ∧ req.owner_name = e.owner_name ∧
    req.phone = e.phone ∧ req.address = e.address ∧
    req.gst_number = e.gst_number ∧
    (applySellerUpdate req row).email = row.email ∧
    (applySellerUpdate req row).is_verified = row.is_verified ∧
    (applySellerUpdate req row).id = row.id ∧
    (row.id = uid →
      (applySellerUpdate req row).shop_name = e.shop_name ∧
      (applySellerUpdate req row).owner_name = e.owner_name ∧
      (applySellerUpdate req row).phone = e.phone ∧
      (applySellerUpdate req row).address = e.address ∧
      (applySellerUpdate req row).gst_number = e.gst_number) ∧
    (row.id ≠ uid → applySellerUpdate req row = row) := by
  have hr : req = { shop_name := e.shop_name, owner_name := e.owner_name
                    phone := e.phone, address := e.address
                    gst_number := e.gst_number, targetId := uid } := by
    simpa [handleSave] using hreq.symm
  subst hr
  by_cases hid : row.id = uid
  · refine ⟨rfl, rfl, rfl, rfl, rfl, rfl, ?_, ?_, ?_, ?_, ?_⟩ <;>
      simp [applySellerUpdate, hid]
  · refine ⟨rfl, rfl, rfl, rfl, rfl, rfl, ?_, ?_, ?_, ?_, ?_⟩ <;>
      simp [applySellerUpdate, hid]

/-- C9, witness at a concrete edited profile and the caller's own
row. -/
theorem c9_witness :
    ({ shop_name := "New Shop", owner_name := "New Owner", phone := "+2"
       address := "New Addr", gst_number := some "G2"
       targetId := "u1" } : SellerUpdateRequest).targetId = "u1" ∧
    ({ shop_name := "New Shop", owner_name := "New Owner", phone := "+2"
       address := "New Addr", gst_number := some "G2"
       targetId := "u1" } : SellerUpdateRequest).shop_name = "New Shop" ∧
    ({ shop_name := "New Shop", owner_name := "New Owner", phone := "+2"
       address := "New Addr", gst_number := some "G2"
       targetId := "u1" } : SellerUpdateRequest).owner_name = "New Owner" ∧
    ({ shop_name := "New Shop", owner_name := "New Owner", phone := "+2"
       address := "New Addr", gst_number := some "G2"
       targetId := "u1" } : SellerUpdateRequest).phone = "+2" ∧
    ({ shop_name := "New Shop", owner_name := "New Owner", phone := "+2"
       address := "New Addr", gst_number := some "G2"
       targetId := "u1" } : SellerUpdateRequest).address = "New Addr" ∧
    ({ shop_name := "New Shop", owner_name := "New Owner", phone := "+2"
       address := "New Addr", gst_number := some "G2"
       targetId := "u1" } : SellerUpdateRequest).gst_number = some "G2" ∧
    (applySellerUpdate
      { shop_name := "New Shop", owner_name := "New Owner", phone := "+2"
        address := "New Addr", gst_number := some "G2", targetId := "u1" }
      { id := "u1", shop_name := "Old Shop", owner_name := "Old Owner"
        phone := "+1", email := "a@b.c", address := "Old Addr"
        gst_number := none, is_verified := true }).email = "a@b.c" ∧
    (applySellerUpdate
      { shop_name := "New Shop", owner_name := "New Owner", phone := "+2"
        address := "New Addr", gst_number := some "G2", targetId := "u1" }
      { id := "u1", shop_name := "Old Shop", owner_name := "Old Owner"
        phone := "+1", email := "a@b.c", address := "Old Addr"
        gst_number := none, is_verified := true }).is_verified = true ∧
    (applySellerUpdate
      { shop_name := "New Shop", owner_name := "New Owner", phone := "+2"
        address := "New Addr", gst_number := some "G2", targetId := "u1" }
      { id := "u1", shop_name := "Old Shop", owner_name := "Old Owner"
        phone := "+1", email := "a@b.c", address := "Old Addr"
        gst_number := none, is_verified := true }).id = "u1" ∧
    ("u1" = "u1" →
      (applySellerUpdate
        { shop_name := "New Shop", owner_name := "New Owner", phone := "+2"
          address := "New Addr", gst_number := some "G2", targetId := "u1" }
        { id := "u1", shop_name := "Old Shop", owner_name := "Old Owner"
          phone := "+1", email := "a@b.c", address := "Old Addr"
          gst_number := none, is_verified := true }).shop_name = "New Shop" ∧
      (applySellerUpdate
        { shop_name := "New Shop", owner_name := "New Owner", phone := "+2"
          address := "New Addr", gst_number := some "G2", targetId := "u1" }
        { id := "u1", shop_name := "Old Shop", owner_name := "Old Owner"
          phone := "+1", email := "a@b.c", address := "Old Addr"
          gst_number := none, is_verified := true }).owner_name = "New Owner" ∧
      (applySellerUpdate
        { shop_name := "New Shop", owner_name := "New Owner", phone := "+2"
          address := "New Addr", gst_number := some "G2", targetId := "u1" }
        { id := "u1", shop_name := "Old Shop", owner_name := "Old Owner"
          phone := "+1", email := "a@b.c", address := "Old Addr"
          gst_number := none, is_verified := true }).phone = "+2" ∧
      (applySellerUpdate
        { shop_name := "New Shop", owner_name := "New Owner", phone := "+2"
          address := "New Addr", gst_number := some "G2", targetId := "u1" }
        { id := "u1", shop_name := "Old Shop", owner_name := "Old Owner"
          phone := "+1", email := "a@b.c", address := "Old Addr"
          gst_number := none, is_verified := true }).address = "New Addr" ∧
      (applySellerUpdate
        { shop_name := "New Shop", owner_name := "New Owner", phone := "+2"
          address := "New Addr", gst_number := some "G2", targetId := "u1" }
        { id := "u1", shop_name := "Old Shop", owner_name := "Old Owner"
          phone := "+1", email := "a@b.c", address := "Old Addr"
          gst_number := none, is_verified := true }).gst_number = some "G2") ∧
    ("u1" ≠ "u1" →
      applySellerUpdate
        { shop_name := "New Shop", owner_name := "New Owner", phone := "+2"
          address := "New Addr", gst_number := some "G2", targetId := "u1" }
        { id := "u1", shop_name := "Old Shop", owner_name := "Old Owner"
          phone := "+1", email := "a@b.c", address := "Old Addr"
          gst_number := none, is_verified := true } =
      { id := "u1", shop_name := "Old Shop", owner_name := "Old Owner"
        phone := "+1", email := "a@b.c", address := "Old Addr"
        gst_number := none, is_verified := true }) :=
  c9_profile_save_frame "u1"
    { shop_name := "New Shop", owner_name := "New Owner", phone := "+2"
      email := "a@b.c", address := "New Addr", gst_number := some "G2"
      is_verified := true }
    { id := "u1", shop_name := "Old Shop", owner_name := "Old Owner"
      phone := "+1", email := "a@b.c", address := "Old Addr"
      gst_number := none, is_verified := true }
    { shop_name := "New Shop", owner_name := "New Owner", phone := "+2"
      address := "New Addr", gst_number := some "G2", targetId := "u1" } rfl

/-- C10: the dashboard's revenue equals the sum of `total_amount` over
exactly the delivered orders: every order contributes its amount when
its status is `'delivered'` and `0` otherwise, and appending a
non-delivered order leaves the revenue unchanged. -/
theorem c10_delivered_revenue (products : List SellerProduct)
    (orders : List Order) (o : Order) (h : o.status ≠ "delivered") :
    (loadStats products orders).revenue =
      (orders.map fun x => if x.status == "delivered" then x.total_amount else 0).sum ∧
    (loadStats products (orders ++ [o])).revenue =
      (loadStats products orders).revenue := by
  have hb : (o.status == "delivered") = false := by simp [h]
  constructor
  · rw [loadStats]
    rw [← List.sum_eq_foldl]
    exact sum_map_filter_delivered orders
  · simp [loadStats, List.filter_append, hb]

/-- C10, witness: one delivered and one cancelled order; the cancelled
order contributes nothing. -/
theorem c10_witness :
    (loadStats []
      [{ id := "o1", buyer_name := "B", buyer_phone := "+1"
         buyer_address := "a", status := "delivered", total_amount := 100
         created_at := "t1" }]).revenue =
      (([{ id := "o1", buyer_name := "B", buyer_phone := "+1"
           buyer_address := "a", status := "delivered", total_amount := 100
           created_at := "t1" }] : List Order).map
        fun x => if x.status == "delivered" then x.total_amount else 0).sum ∧
    (loadStats []
      ([{ id := "o1", buyer_name := "B", buyer_phone := "+1"
          buyer_address := "a", status := "delivered", total_amount := 100
          created_at := "t1" }] ++
       [{ id := "o2", buyer_name := "C", buyer_phone := "+2"
          buyer_address := "b", status := "cancelled", total_amount := 50
          created_at := "t2" }])).revenue =
      (loadStats []
        [{ id := "o1", buyer_name := "B", buyer_phone := "+1"
           buyer_address := "a", status := "delivered", total_amount := 100
           created_at := "t1" }]).revenue :=
  c10_delivered_revenue []
    [{ id := "o1", buyer_name := "B", buyer_phone := "+1"
       buyer_address := "a", status := "delivered", total_amount := 100
       created_at := "t1" }]
    { id := "o2", buyer_name := "C", buyer_phone := "+2"
      buyer_address := "b", status := "cancelled", total_amount := 50
      created_at := "t2" } (by decide)

end Userpage
